import Mathlib

/-!
Verification of the PPP financial calculation engine
(`financial_engine.py` together with the scenario registry in `config.py`).

The engine is embedded shallowly over exact rational arithmetic `ℚ`:
every per-year cashflow column becomes a Lean function of the (adjusted)
parameter set and the 1-based year index, the stateful tax pass becomes a
structurally recursive function threading the `cumulative_loss` accumulator,
and the KPI aggregation becomes a pure function of the parameter set.
`np.inf` sentinels and absent/null KPI values are encoded with `Option`.
-/

namespace PPP

/-- The Parameter Set: the bundle of financial assumptions handed to
`PPPFinancialEngine`.  `project_period` and `depreciation_period` are
positive integers in the data model, the rest are reals (here `ℚ`). -/
structure Params where
  total_investment : ℚ
  project_period : ℕ
  depreciation_period : ℕ
  equity_ratio : ℚ
  debt_rate : ℚ
  discount_rate : ℚ
  tax_rate : ℚ
  initial_revenue : ℚ
  revenue_growth : ℚ
  op_cost_ratio : ℚ
  inflation : ℚ
deriving DecidableEq

/-- A named scenario adjustment: four multiplicative deltas
(`config.SCENARIO_ADJUSTMENTS` entries). -/
structure ScenarioAdjustment where
  capex_adj : ℚ
  revenue_adj : ℚ
  opex_adj : ℚ
  debt_rate_adj : ℚ
deriving DecidableEq

/-- The scenario registry `SCENARIO_ADJUSTMENTS` of `config.py`, with the
`dict.get(scenario, SCENARIO_ADJUSTMENTS['Base Case'])` fallback of
`PPPFinancialEngine.__init__`: unknown names resolve to Base Case
(all-zero deltas). -/
def SCENARIO_ADJUSTMENTS (name : String) : ScenarioAdjustment :=
  if name = "Downside" then ⟨10/100, -(15/100), 5/100, 1/100⟩
  else if name = "Upside" then ⟨-(5/100), 10/100, -(5/100), -(5/1000)⟩
  else ⟨0, 0, 0, 0⟩

/-- `PPPFinancialEngine._apply_scenario_adjustments`: scales four fields of a
copy of the base parameters, leaving the rest unchanged. -/
def apply_scenario_adjustments (p : Params) (adj : ScenarioAdjustment) : Params :=
  { p with
    total_investment := p.total_investment * (1 + adj.capex_adj)
    initial_revenue := p.initial_revenue * (1 + adj.revenue_adj)
    op_cost_ratio := p.op_cost_ratio * (1 + adj.opex_adj)
    debt_rate := p.debt_rate * (1 + adj.debt_rate_adj) }

/-- Column `Revenue` of the cashflow table:
`initial_revenue * (1 + revenue_growth) ** (years - 1)` at 1-based year `y`. -/
def Revenue (p : Params) (y : ℕ) : ℚ :=
  p.initial_revenue * (1 + p.revenue_growth) ^ (y - 1)

/-- Column `OpCost`: `Revenue * op_cost_ratio * (1 + inflation) ** (years - 1)`. -/
def OpCost (p : Params) (y : ℕ) : ℚ :=
  Revenue p y * p.op_cost_ratio * (1 + p.inflation) ^ (y - 1)

/-- Column `EBITDA`: `Revenue - OpCost`. -/
def EBITDA (p : Params) (y : ℕ) : ℚ := Revenue p y - OpCost p y

/-- `annual_depreciation = total_investment / depreciation_period`. -/
def annual_depreciation (p : Params) : ℚ :=
  p.total_investment / (p.depreciation_period : ℚ)

/-- Column `Depreciation`: straight-line while `years <= depreciation_period`,
then 0. -/
def Depreciation (p : Params) (y : ℕ) : ℚ :=
  if y ≤ p.depreciation_period then annual_depreciation p else 0

/-- Column `EBIT`: `EBITDA - Depreciation`. -/
def EBIT (p : Params) (y : ℕ) : ℚ := EBITDA p y - Depreciation p y

/-- `debt_investment = total_investment * (1 - equity_ratio)`. -/
def debt_investment (p : Params) : ℚ :=
  p.total_investment * (1 - p.equity_ratio)

/-- `annual_principal = debt_investment / project_period`. -/
def annual_principal (p : Params) : ℚ :=
  debt_investment p / (p.project_period : ℚ)

/-- Column `Debt_Balance_Start`:
`np.maximum(0, debt_investment - annual_principal * (years - 1))`. -/
def Debt_Balance_Start (p : Params) (y : ℕ) : ℚ :=
  max 0 (debt_investment p - annual_principal p * ((y : ℚ) - 1))

/-- Column `Interest_Payment`: `Debt_Balance_Start * debt_rate`. -/
def Interest_Payment (p : Params) (y : ℕ) : ℚ :=
  Debt_Balance_Start p y * p.debt_rate

/-- Column `Principal_Repayment`:
`np.where(Debt_Balance_Start > 0, annual_principal, 0)`. -/
def Principal_Repayment (p : Params) (y : ℕ) : ℚ :=
  if 0 < Debt_Balance_Start p y then annual_principal p else 0

/-- Column `Debt_Service`: `Interest_Payment + Principal_Repayment`. -/
def Debt_Service (p : Params) (y : ℕ) : ℚ :=
  Interest_Payment p y + Principal_Repayment p y

/-- Column `EBT`: `EBIT - Interest_Payment`. -/
def EBT (p : Params) (y : ℕ) : ℚ := EBIT p y - Interest_Payment p y

/-- `PPPFinancialEngine._calculate_tax_with_loss_carryforward`: the stateful
single pass over the ordered EBT sequence, threading `cumulative_loss` and
emitting the `(taxable_income, tax)` pair for each year in order. -/
def calculate_tax_with_loss_carryforward
    (tax_rate cumulative_loss : ℚ) : List ℚ → List (ℚ × ℚ)
  | [] => []
  | ebt :: rest =>
    let loss_to_use := min cumulative_loss (max 0 (-ebt))
    let taxable := max 0 (ebt + loss_to_use)
    let tax := max 0 (taxable * tax_rate)
    let cl := if ebt < 0 then cumulative_loss + |ebt| else cumulative_loss - loss_to_use
    (taxable, tax) :: calculate_tax_with_loss_carryforward tax_rate cl rest

/-- The successive values taken by the `cumulative_loss` accumulator of
`_calculate_tax_with_loss_carryforward`, one per processed year (same update
rule as `calculate_tax_with_loss_carryforward`). -/
def cumulative_loss_states (cumulative_loss : ℚ) : List ℚ → List ℚ
  | [] => []
  | ebt :: rest =>
    let loss_to_use := min cumulative_loss (max 0 (-ebt))
    let cl := if ebt < 0 then cumulative_loss + |ebt| else cumulative_loss - loss_to_use
    cl :: cumulative_loss_states cl rest

/-- The ordered EBT sequence handed to the Tax Calculator: `df['EBT']` for
years `1..project_period`. -/
def ebtList (p : Params) : List ℚ :=
  (List.range p.project_period).map (fun i => EBT p (i + 1))

/-- The `(Taxable_Income, Tax)` columns as returned by the tax pass, with the
accumulator initialized to 0 as in the source. -/
def taxPairs (p : Params) : List (ℚ × ℚ) :=
  calculate_tax_with_loss_carryforward p.tax_rate 0 (ebtList p)

/-- Column `Taxable_Income` at 1-based year `y`. -/
def Taxable_Income (p : Params) (y : ℕ) : ℚ :=
  ((taxPairs p).getD (y - 1) (0, 0)).1

/-- Column `Tax` at 1-based year `y`. -/
def Tax (p : Params) (y : ℕ) : ℚ :=
  ((taxPairs p).getD (y - 1) (0, 0)).2

/-- Column `CFAds`: `EBITDA - Tax` (cash flow available for debt service). -/
def CFAds (p : Params) (y : ℕ) : ℚ := EBITDA p y - Tax p y

/-- Column `DSCR`: `np.where(Debt_Service > 0, CFAds / Debt_Service, np.inf)`;
the `np.inf` sentinel is encoded as `none`. -/
def DSCR (p : Params) (y : ℕ) : Option ℚ :=
  if 0 < Debt_Service p y then some (CFAds p y / Debt_Service p y) else none

/-- The `CFAds` column as an ordered list, years `1..project_period`
(`df['CFAds'].tolist()`). -/
def cfadsList (p : Params) : List ℚ :=
  (List.range p.project_period).map (fun i => CFAds p (i + 1))

/-- The finite DSCR values in year order:
`df['DSCR'][df['DSCR'] != np.inf]` (the `np.inf` sentinel is `none` and is
dropped). -/
def dscrValues (p : Params) : List ℚ :=
  (List.range p.project_period).filterMap (fun i => DSCR p (i + 1))

/-- `npf.npv(rate, values)` = sum of `values[i] / (1+rate)**i`, the first
element (period 0) undiscounted; `k` is the period index of the head. -/
def npvAux (rate : ℚ) : ℕ → List ℚ → ℚ
  | _, [] => 0
  | k, c :: rest => c / (1 + rate) ^ k + npvAux rate (k + 1) rest

/-- `npf.npv` on a whole cashflow list, starting at period 0. -/
def npv (rate : ℚ) (cfs : List ℚ) : ℚ := npvAux rate 0 cfs

/-- `np.cumsum` with a threaded running total. -/
def cumsumAux (acc : ℚ) : List ℚ → List ℚ
  | [] => []
  | x :: xs => (acc + x) :: cumsumAux (acc + x) xs

/-- `np.cumsum`: the list of running partial sums. -/
def cumsum (l : List ℚ) : List ℚ := cumsumAux 0 l

/-- `np.where(cumsum_cf >= 0)[0]` followed by `[0]`: the first (0-based)
index at which the list entry is `≥ 0`, if any. -/
def first_nonneg_index : List ℚ → Option ℕ
  | [] => none
  | x :: xs => if 0 ≤ x then some 0 else (first_nonneg_index xs).map (· + 1)

/-- `payback_period = payback_idx[0] + 1 if len(payback_idx) > 0 else np.inf`
over `cumsum_cf = np.cumsum(project_cf[1:])`; `np.inf` (never pays back)
is encoded as `none`. -/
def payback_period (p : Params) : Option ℕ :=
  (first_nonneg_index (cumsum (cfadsList p))).map (· + 1)

/-- `pv_inflows = sum(CFAds[i] / (1+discount_rate)**(i+1) for i in range(n))`. -/
def pv_inflows (p : Params) : ℚ :=
  ((List.range p.project_period).map
    (fun i => CFAds p (i + 1) / (1 + p.discount_rate) ^ (i + 1))).sum

/-- The KPI Summary returned by `_calculate_kpis`; fields reported as
`None` in the source (`np.inf` / non-convergent IRR) are `Option`s. -/
structure KPISummary where
  project_npv : ℚ
  project_irr : Option ℚ
  min_dscr : Option ℚ
  avg_dscr : ℚ
  payback_period : Option ℕ
  profitability_index : ℚ
  equity_npv : ℚ
  debt_coverage : ℚ
deriving DecidableEq, Inhabited

/-- `PPPFinancialEngine._calculate_kpis`.  The IRR root-finder `npf.irr` is
an external numerical library, not code of this repository; it is passed in
as an oracle `irr` returning `none` exactly when the source's
`try/except` + NaN guard would report `None`. -/
def calculate_kpis (irr : List ℚ → Option ℚ) (p : Params) : KPISummary :=
  let equity_investment := p.total_investment * p.equity_ratio
  let project_cf := -p.total_investment :: cfadsList p
  let project_npv := npv p.discount_rate project_cf
  let valid_dscr := dscrValues p
  let avg_dscr := if 0 < valid_dscr.length then valid_dscr.sum / (valid_dscr.length : ℚ) else 0
  { project_npv := project_npv
    project_irr := irr project_cf
    min_dscr := valid_dscr.min?
    avg_dscr := avg_dscr
    payback_period := payback_period p
    profitability_index :=
      if 0 < equity_investment then pv_inflows p / equity_investment else 0
    equity_npv := project_npv
    debt_coverage := avg_dscr }

/-- `PPPFinancialEngine.calculate_project_cashflow` restricted to its KPI
summary: scenario adjustments applied to the base parameters, then the
cashflow columns and KPIs computed from the adjusted parameters. -/
def calculate_project_cashflow
    (irr : List ℚ → Option ℚ) (p : Params) (scenario : String) : KPISummary :=
  calculate_kpis irr (apply_scenario_adjustments p (SCENARIO_ADJUSTMENTS scenario))

/-- The real-valued fields of the Parameter Set that a sensitivity sweep can
override (`test_params[variable] = value`). -/
inductive ParamField
  | total_investment
  | equity_ratio
  | debt_rate
  | discount_rate
  | tax_rate
  | initial_revenue
  | revenue_growth
  | op_cost_ratio
  | inflation
deriving DecidableEq

/-- Override a single named field of a copy of the Parameter Set. -/
def setParam (p : Params) : ParamField → ℚ → Params
  | .total_investment, v => { p with total_investment := v }
  | .equity_ratio, v => { p with equity_ratio := v }
  | .debt_rate, v => { p with debt_rate := v }
  | .discount_rate, v => { p with discount_rate := v }
  | .tax_rate, v => { p with tax_rate := v }
  | .initial_revenue, v => { p with initial_revenue := v }
  | .revenue_growth, v => { p with revenue_growth := v }
  | .op_cost_ratio, v => { p with op_cost_ratio := v }
  | .inflation, v => { p with inflation := v }

/-- One row of the sensitivity result table: the KPI summary of a run plus
the swept value it is tagged with (`kpis[variable] = value`; the swept
parameter names are disjoint from the KPI field names, so the tag is a
separate field). -/
structure SensitivityRow where
  kpis : KPISummary
  swept_value : ℚ
deriving DecidableEq, Inhabited

/-- `PPPFinancialEngine.sensitivity_analysis`: for each candidate value,
copy the base parameters, override the swept field, run a fresh engine with
the same scenario, and collect its KPI summary tagged with the value. -/
def sensitivity_analysis (irr : List ℚ → Option ℚ) (p : Params) (scenario : String)
    (var : ParamField) (values : List ℚ) : List SensitivityRow :=
  values.map (fun v => ⟨calculate_project_cashflow irr (setParam p var v) scenario, v⟩)

/-- `config.DefaultFinancialParams`: the default parameter set, which is
also the concrete scenario of the testable-properties section. -/
def DefaultFinancialParams : Params :=
  { total_investment := 5000
    project_period := 25
    depreciation_period := 25
    equity_ratio := 30/100
    debt_rate := 9/100
    discount_rate := 15/100
    tax_rate := 20/100
    initial_revenue := 1000
    revenue_growth := 3/100
    op_cost_ratio := 35/100
    inflation := 3/100 }

/-- The per-year contribution of an EBT value to the loss accumulator:
`|ebt|` for a loss year, `0` otherwise. -/
def neg_part (e : ℚ) : ℚ := if e < 0 then -e else 0

/-- Sum of `|EBT|` over the negative-EBT entries of a list. -/
def neg_ebt_sum (l : List ℚ) : ℚ := (l.map neg_part).sum

/-- The adjusted parameter set of the concrete scenario of the spec:
defaults under scenario "Base Case". -/
def adjustedDefaultParams : Params :=
  apply_scenario_adjustments DefaultFinancialParams (SCENARIO_ADJUSTMENTS "Base Case")

/-- A parameter set inside the documented domain (positive investment and
periods, `equity_ratio ∈ [0,1]`; `debt_rate` is an unconstrained real in
the data model) whose negative debt rate makes `Debt_Service(1)` negative. -/
def negativeRateParams : Params :=
  { total_investment := 100
    project_period := 2
    depreciation_period := 2
    equity_ratio := 0
    debt_rate := -1
    discount_rate := 1/10
    tax_rate := 1/5
    initial_revenue := 100
    revenue_growth := 0
    op_cost_ratio := 1/2
    inflation := 0 }

/-- A parameter set with zero total investment: every year's `Debt_Service`
is 0, so the table has no finite DSCR value, and the equity investment
`total_investment * equity_ratio` is 0. -/
def zeroInvestmentParams : Params :=
  { total_investment := 0
    project_period := 2
    depreciation_period := 2
    equity_ratio := 1/2
    debt_rate := 1/10
    discount_rate := 1/10
    tax_rate := 1/5
    initial_revenue := 0
    revenue_growth := 0
    op_cost_ratio := 0
    inflation := 0 }

theorem neg_part_nonneg (e : ℚ) : 0 ≤ neg_part e := by
  unfold neg_part; split <;> linarith

theorem neg_ebt_sum_cons (e : ℚ) (l : List ℚ) :
    neg_ebt_sum (e :: l) = neg_part e + neg_ebt_sum l := by
  simp [neg_ebt_sum]

/-- With a nonnegative accumulator, one step of the source's
`cumulative_loss` update just adds the negative part of the year's EBT. -/
theorem loss_step_eq (cl e : ℚ) (hcl : 0 ≤ cl) :
    (if e < 0 then cl + |e| else cl - min cl (max 0 (-e))) = cl + neg_part e := by
  unfold neg_part
  by_cases he : e < 0
  · rw [if_pos he, if_pos he, abs_of_neg he]
  · rw [if_neg he, if_neg he]
    have h1 : max 0 (-e) = 0 := max_eq_left (by linarith [not_lt.mp he])
    rw [h1, min_eq_right hcl, sub_zero, add_zero]

/-- The output of the tax pass is pointwise `(max 0 EBT, max 0 (max 0 EBT * rate))`,
for any nonnegative initial accumulator: the carried loss never enters the
emitted pair. -/
theorem calculate_tax_map (rate : ℚ) :
    ∀ (l : List ℚ) (cl : ℚ), 0 ≤ cl →
      calculate_tax_with_loss_carryforward rate cl l
        = l.map (fun e => (max 0 e, max 0 (max 0 e * rate))) := by
  intro l
  induction l with
  | nil => intro cl _; rfl
  | cons e rest ih =>
    intro cl hcl
    simp only [calculate_tax_with_loss_carryforward, List.map_cons]
    by_cases he : e < 0
    · have hmax : max 0 (-e) = -e := max_eq_right (by linarith)
      have hmin0 : 0 ≤ min cl (-e) := le_min hcl (by linarith)
      have hminle : min cl (-e) ≤ -e := min_le_right _ _
      have htaxable : max 0 (e + min cl (-e)) = 0 := max_eq_left (by linarith)
      have hme : max 0 e = 0 := max_eq_left (by linarith)
      rw [if_pos he, hmax, htaxable, hme,
        ih (cl + |e|) (by linarith [abs_nonneg e])]
    · have h0e : 0 ≤ e := not_lt.mp he
      have hmax : max 0 (-e) = 0 := max_eq_left (by linarith)
      have hme : max 0 e = e := max_eq_right h0e
      rw [if_neg he, hmax, min_eq_right hcl, add_zero, sub_zero, ih cl hcl, hme]

/-- The successive accumulator values are the running sums of `|EBT|` over the
negative-EBT entries processed so far (shifted by the initial accumulator). -/
theorem cumulative_loss_states_eq :
    ∀ (l : List ℚ) (cl : ℚ), 0 ≤ cl →
      cumulative_loss_states cl l
        = (List.range l.length).map (fun i => cl + neg_ebt_sum (l.take (i + 1))) := by
  intro l
  induction l with
  | nil => intro cl _; rfl
  | cons e rest ih =>
    intro cl hcl
    simp only [cumulative_loss_states]
    rw [loss_step_eq cl e hcl,
      ih (cl + neg_part e) (by linarith [neg_part_nonneg e])]
    rw [List.length_cons, List.range_succ_eq_map, List.map_cons, List.map_map]
    congr 1
    · simp [neg_ebt_sum]
    · apply List.map_congr_left
      intro i _
      simp only [Function.comp_apply, List.take_succ_cons, neg_ebt_sum_cons]
      ring

/-- From a nonnegative accumulator the accumulator trace is nondecreasing. -/
theorem cumulative_loss_states_chain :
    ∀ (l : List ℚ) (cl : ℚ), 0 ≤ cl →
      List.Chain' (· ≤ ·) (cl :: cumulative_loss_states cl l) := by
  intro l
  induction l with
  | nil => intro cl _; simp [cumulative_loss_states]
  | cons e rest ih =>
    intro cl hcl
    simp only [cumulative_loss_states]
    rw [loss_step_eq cl e hcl]
    exact List.Chain'.cons (by linarith [neg_part_nonneg e])
      (ih (cl + neg_part e) (by linarith [neg_part_nonneg e]))

theorem ebtList_length (p : Params) : (ebtList p).length = p.project_period := by
  simp [ebtList]

/-- Closed form of the `Taxable_Income` column inside the table. -/
theorem Taxable_Income_eq (p : Params) (y : ℕ)
    (h1 : 1 ≤ y) (h2 : y ≤ p.project_period) :
    Taxable_Income p y = max 0 (EBT p y) := by
  have hy : y - 1 < (ebtList p).length := by rw [ebtList_length]; omega
  unfold Taxable_Income taxPairs
  rw [calculate_tax_map p.tax_rate (ebtList p) 0 le_rfl,
    List.getD_eq_getElem _ _ (by simpa using hy), List.getElem_map]
  unfold ebtList
  rw [List.getElem_map, List.getElem_range]
  have hy1 : y - 1 + 1 = y := by omega
  rw [hy1]

/-- Closed form of the `Tax` column inside the table. -/
theorem Tax_eq (p : Params) (y : ℕ)
    (h1 : 1 ≤ y) (h2 : y ≤ p.project_period) :
    Tax p y = max 0 (max 0 (EBT p y) * p.tax_rate) := by
  have hy : y - 1 < (ebtList p).length := by rw [ebtList_length]; omega
  unfold Tax taxPairs
  rw [calculate_tax_map p.tax_rate (ebtList p) 0 le_rfl,
    List.getD_eq_getElem _ _ (by simpa using hy), List.getElem_map]
  unfold ebtList
  rw [List.getElem_map, List.getElem_range]
  have hy1 : y - 1 + 1 = y := by omega
  rw [hy1]

/-- C1 (code-bug evidence): on the EBT sequence `[-100, 200]` with tax rate
`1/4`, the year-1 loss of 100 is carried (`cumulative_loss = 100` after
year 1), yet the profitable year 2 is taxed on its full EBT: the pass
returns `Taxable_Income = 200 = EBT` and `Tax = 50` instead of consuming the
carried loss, because `loss_to_use = min(cumulative_loss, max(0, -EBT))`
vanishes whenever `EBT > 0`. -/
theorem tax_loss_carryforward_never_reduces_profitable_year :
    calculate_tax_with_loss_carryforward (1/4) 0 [-100, 200] = [(0, 0), (200, 50)]
    ∧ cumulative_loss_states 0 [-100, 200] = [100, 100] := by
  constructor
  · rw [calculate_tax_map (1/4) [-100, 200] 0 le_rfl]
    norm_num
  · rw [cumulative_loss_states_eq [-100, 200] 0 le_rfl]
    norm_num [List.range_succ, neg_ebt_sum, neg_part]

/-- C2: the tax pass returns `Taxable_Income = max 0 EBT` and
`Tax = max 0 (max 0 EBT * rate)` for every year; any nonnegative initial
accumulator yields the same output as the source's initial `0`; and the
accumulator trace starting from `0` is nondecreasing and equals the running
sum of `|EBT|` over the negative-EBT years processed so far. -/
theorem tax_pass_output_independent_of_cumulative_loss (rate : ℚ) (ebts : List ℚ) :
    calculate_tax_with_loss_carryforward rate 0 ebts
      = ebts.map (fun e => (max 0 e, max 0 (max 0 e * rate)))
    ∧ (∀ cl : ℚ, 0 ≤ cl →
        calculate_tax_with_loss_carryforward rate cl ebts
          = calculate_tax_with_loss_carryforward rate 0 ebts)
    ∧ List.Chain' (· ≤ ·) (0 :: cumulative_loss_states 0 ebts)
    ∧ ∀ i, i < ebts.length →
        (cumulative_loss_states 0 ebts).getD i 0 = neg_ebt_sum (ebts.take (i + 1)) := by
  refine ⟨calculate_tax_map rate ebts 0 le_rfl, ?_, cumulative_loss_states_chain ebts 0 le_rfl, ?_⟩
  · intro cl hcl
    rw [calculate_tax_map rate ebts cl hcl, calculate_tax_map rate ebts 0 le_rfl]
  · intro i hi
    rw [cumulative_loss_states_eq ebts 0 le_rfl]
    have hlen : i < ((List.range ebts.length).map
        (fun j => 0 + neg_ebt_sum (ebts.take (j + 1)))).length := by simpa using hi
    rw [List.getD_eq_getElem _ _ hlen, List.getElem_map, List.getElem_range]
    ring

/-- C2 witness: the theorem instantiated on the EBT sequence `[-5, 3]` with
rate `1/2`, discharging the accumulator and index hypotheses at `cl = 7`
and `i = 1`. -/
theorem tax_pass_output_independent_of_cumulative_loss_witness :
    calculate_tax_with_loss_carryforward (1/2) 7 [-5, 3]
      = calculate_tax_with_loss_carryforward (1/2) 0 [-5, 3]
    ∧ (cumulative_loss_states 0 [-5, 3]).getD 1 0 = neg_ebt_sum ([-5, 3].take 2) := by
  have h := tax_pass_output_independent_of_cumulative_loss (1/2) [-5, 3]
  exact ⟨h.2.1 7 (by norm_num), h.2.2.2 1 (by norm_num)⟩

/-- C9: every year of the table has nonnegative `Tax` and `Taxable_Income`,
and a negative-EBT year pays zero tax. -/
theorem tax_nonneg_invariants (p : Params) (y : ℕ)
    (h1 : 1 ≤ y) (h2 : y ≤ p.project_period) :
    0 ≤ Tax p y ∧ 0 ≤ Taxable_Income p y ∧ (EBT p y < 0 → Tax p y = 0) := by
  rw [Tax_eq p y h1 h2, Taxable_Income_eq p y h1 h2]
  refine ⟨le_max_left _ _, le_max_left _ _, fun hneg => ?_⟩
  rw [max_eq_left (le_of_lt hneg), zero_mul, max_self]

/-- C9 witness: the invariants evaluated at year 1 of the default parameter
set, whose `EBT(1) = 135`. -/
theorem tax_nonneg_invariants_witness :
    0 ≤ Tax DefaultFinancialParams 1 ∧ 0 ≤ Taxable_Income DefaultFinancialParams 1 := by
  have h := tax_nonneg_invariants DefaultFinancialParams 1 (by norm_num)
    (by norm_num [DefaultFinancialParams])
  exact ⟨h.1, h.2.1⟩

/-- C3 counterexample: at the default parameter set (positive investment,
`project_period = 25`, `equity_ratio = 0.30 ∈ [0,1)`), the start-of-year
balance of the final year is `140`, not `0`: the schedule amortizes the last
instalment only during the final year, so `Debt_Balance_Start(project_period)`
equals one annual principal instalment. -/
theorem debt_balance_start_final_year_nonzero :
    0 < DefaultFinancialParams.total_investment
    ∧ 1 ≤ DefaultFinancialParams.project_period
    ∧ 0 ≤ DefaultFinancialParams.equity_ratio
    ∧ DefaultFinancialParams.equity_ratio < 1
    ∧ Debt_Balance_Start DefaultFinancialParams DefaultFinancialParams.project_period = 140
    ∧ (140 : ℚ) ≠ 0 := by
  norm_num [DefaultFinancialParams, Debt_Balance_Start, debt_investment, annual_principal]

/-- C3 (amended): for positive investment, a positive project period and
`equity_ratio ∈ [0,1)`, the `Debt_Balance_Start` column is nonnegative and
monotonically non-increasing in the year, and at year `project_period` it
equals the (positive) annual principal instalment
`debt_investment / project_period` — the balance hits zero only after the
final year's repayment, not at year `project_period` itself. -/
theorem debt_balance_start_amortization (p : Params)
    (hTI : 0 < p.total_investment) (hP : 1 ≤ p.project_period)
    (her0 : 0 ≤ p.equity_ratio) (her1 : p.equity_ratio < 1) :
    (∀ y, 0 ≤ Debt_Balance_Start p y)
    ∧ (∀ y z : ℕ, y ≤ z → Debt_Balance_Start p z ≤ Debt_Balance_Start p y)
    ∧ Debt_Balance_Start p p.project_period = annual_principal p
    ∧ 0 < annual_principal p := by
  have hPq : (0 : ℚ) < (p.project_period : ℚ) := by
    exact_mod_cast Nat.lt_of_lt_of_le Nat.zero_lt_one hP
  have hap : 0 < annual_principal p := by
    unfold annual_principal debt_investment
    exact div_pos (mul_pos hTI (by linarith)) hPq
  refine ⟨fun y => le_max_left _ _, ?_, ?_, hap⟩
  · intro y z hyz
    unfold Debt_Balance_Start
    apply max_le_max le_rfl
    apply sub_le_sub_left
    apply mul_le_mul_of_nonneg_left _ hap.le
    have : (y : ℚ) ≤ (z : ℚ) := by exact_mod_cast hyz
    linarith
  · unfold Debt_Balance_Start
    have hval : debt_investment p - annual_principal p * ((p.project_period : ℚ) - 1)
        = annual_principal p := by
      unfold annual_principal
      field_simp
      ring
    rw [hval, max_eq_right hap.le]

/-- C3 witness: the amended statement instantiated at the default parameter
set, discharging the positivity and ratio hypotheses there. -/
theorem debt_balance_start_amortization_witness :
    0 ≤ Debt_Balance_Start DefaultFinancialParams 7
    ∧ Debt_Balance_Start DefaultFinancialParams 10 ≤ Debt_Balance_Start DefaultFinancialParams 3
    ∧ Debt_Balance_Start DefaultFinancialParams DefaultFinancialParams.project_period
        = annual_principal DefaultFinancialParams := by
  have h := debt_balance_start_amortization DefaultFinancialParams
    (by norm_num [DefaultFinancialParams]) (by norm_num [DefaultFinancialParams])
    (by norm_num [DefaultFinancialParams]) (by norm_num [DefaultFinancialParams])
  exact ⟨h.1 7, h.2.1 3 10 (by norm_num), h.2.2.1⟩

/-- C7 (amended): the `DSCR` column carries the infinite/undefined sentinel
exactly when `Debt_Service ≤ 0` (the source tests `Debt_Service > 0`, so a
zero *or negative* debt service yields the sentinel), and otherwise equals
`CFAds / Debt_Service` with `CFAds = EBITDA - Tax`. -/
theorem dscr_sentinel_iff (p : Params) (y : ℕ) :
    (DSCR p y = none ↔ Debt_Service p y ≤ 0)
    ∧ (0 < Debt_Service p y → DSCR p y = some (CFAds p y / Debt_Service p y))
    ∧ CFAds p y = EBITDA p y - Tax p y := by
  refine ⟨?_, fun h => if_pos h, rfl⟩
  unfold DSCR
  by_cases h : 0 < Debt_Service p y
  · rw [if_pos h]
    exact iff_of_false (by simp) (not_le.mpr h)
  · rw [if_neg h]
    exact iff_of_true rfl (not_lt.mp h)

/-- C7 witness: year 1 of the default parameter set has
`Debt_Service = 455 > 0`, and the theorem yields the quotient form there. -/
theorem dscr_sentinel_iff_witness :
    0 < Debt_Service DefaultFinancialParams 1
    ∧ DSCR DefaultFinancialParams 1
        = some (CFAds DefaultFinancialParams 1 / Debt_Service DefaultFinancialParams 1) := by
  have hds : 0 < Debt_Service DefaultFinancialParams 1 := by
    norm_num [Debt_Service, Interest_Payment, Principal_Repayment,
      Debt_Balance_Start, debt_investment, annual_principal, DefaultFinancialParams]
  exact ⟨hds, (dscr_sentinel_iff DefaultFinancialParams 1).2.1 hds⟩

/-- C7 counterexample to the claim as stated: with the (documented-domain)
negative debt rate of `negativeRateParams`, year 1 has
`Debt_Service = -50 ≠ 0`, yet `DSCR` is the sentinel — the sentinel does not
appear *exactly* at `Debt_Service = 0`. -/
theorem dscr_sentinel_negative_debt_service :
    DSCR negativeRateParams 1 = none ∧ Debt_Service negativeRateParams 1 ≠ 0 := by
  have hds : Debt_Service negativeRateParams 1 = -50 := by
    norm_num [Debt_Service, Interest_Payment, Principal_Repayment,
      Debt_Balance_Start, debt_investment, annual_principal, negativeRateParams]
  constructor
  · unfold DSCR
    rw [if_neg (by rw [hds]; norm_num)]
  · rw [hds]; norm_num

/-- The "Base Case" scenario has all-zero deltas, so adjustment is the
identity on the parameter set. -/
theorem apply_base_case (p : Params) :
    apply_scenario_adjustments p (SCENARIO_ADJUSTMENTS "Base Case") = p := by
  have h : SCENARIO_ADJUSTMENTS "Base Case" = ⟨0, 0, 0, 0⟩ := rfl
  cases p
  norm_num [apply_scenario_adjustments, h]

/-- C4: the year-1 row of the cashflow table at the spec's concrete scenario
(default parameters, scenario "Base Case"). -/
theorem base_case_year_one_row :
    Revenue adjustedDefaultParams 1 = 1000
    ∧ OpCost adjustedDefaultParams 1 = 350
    ∧ EBITDA adjustedDefaultParams 1 = 650
    ∧ Depreciation adjustedDefaultParams 1 = 200
    ∧ EBIT adjustedDefaultParams 1 = 450
    ∧ Debt_Balance_Start adjustedDefaultParams 1 = 3500
    ∧ Interest_Payment adjustedDefaultParams 1 = 315
    ∧ EBT adjustedDefaultParams 1 = 135
    ∧ Taxable_Income adjustedDefaultParams 1 = 135
    ∧ Tax adjustedDefaultParams 1 = 27
    ∧ CFAds adjustedDefaultParams 1 = 623
    ∧ Debt_Service adjustedDefaultParams 1 = 455
    ∧ DSCR adjustedDefaultParams 1 = some (623/455) := by
  have hp : adjustedDefaultParams = DefaultFinancialParams := by
    unfold adjustedDefaultParams
    exact apply_base_case DefaultFinancialParams
  rw [hp]
  have hRev : Revenue DefaultFinancialParams 1 = 1000 := by
    norm_num [Revenue, DefaultFinancialParams]
  have hOp : OpCost DefaultFinancialParams 1 = 350 := by
    norm_num [OpCost, Revenue, DefaultFinancialParams]
  have hEBITDA : EBITDA DefaultFinancialParams 1 = 650 := by
    rw [EBITDA, hRev, hOp]; norm_num
  have hDep : Depreciation DefaultFinancialParams 1 = 200 := by
    norm_num [Depreciation, annual_depreciation, DefaultFinancialParams]
  have hEBIT : EBIT DefaultFinancialParams 1 = 450 := by
    rw [EBIT, hEBITDA, hDep]; norm_num
  have hDBS : Debt_Balance_Start DefaultFinancialParams 1 = 3500 := by
    norm_num [Debt_Balance_Start, debt_investment, annual_principal, DefaultFinancialParams]
  have hInt : Interest_Payment DefaultFinancialParams 1 = 315 := by
    rw [Interest_Payment, hDBS]
    norm_num [DefaultFinancialParams]
  have hEBT : EBT DefaultFinancialParams 1 = 135 := by
    rw [EBT, hEBIT, hInt]; norm_num
  have hTaxable : Taxable_Income DefaultFinancialParams 1 = 135 := by
    rw [Taxable_Income_eq DefaultFinancialParams 1 (by norm_num)
      (by norm_num [DefaultFinancialParams]), hEBT]
    norm_num
  have hTax : Tax DefaultFinancialParams 1 = 27 := by
    rw [Tax_eq DefaultFinancialParams 1 (by norm_num)
      (by norm_num [DefaultFinancialParams]), hEBT]
    norm_num [DefaultFinancialParams]
  have hCFAds : CFAds DefaultFinancialParams 1 = 623 := by
    rw [CFAds, hEBITDA, hTax]; norm_num
  have hPR : Principal_Repayment DefaultFinancialParams 1 = 140 := by
    rw [Principal_Repayment, hDBS]
    norm_num [annual_principal, debt_investment, DefaultFinancialParams]
  have hDS : Debt_Service DefaultFinancialParams 1 = 455 := by
    rw [Debt_Service, hInt, hPR]; norm_num
  have hDSCR : DSCR DefaultFinancialParams 1 = some (623/455) := by
    rw [DSCR, if_pos (by rw [hDS]; norm_num), hCFAds, hDS]
  exact ⟨hRev, hOp, hEBITDA, hDep, hEBIT, hDBS, hInt, hEBT, hTaxable, hTax,
    hCFAds, hDS, hDSCR⟩

/-- C10: in every KPI summary the `equity_npv` field is the very
`project_npv` value and `debt_coverage` is the very `avg_dscr` value: the
two named KPIs are duplicates, not independently computed quantities. -/
theorem equity_npv_debt_coverage_duplicates (irr : List ℚ → Option ℚ) (p : Params) :
    (calculate_kpis irr p).equity_npv = (calculate_kpis irr p).project_npv
    ∧ (calculate_kpis irr p).debt_coverage = (calculate_kpis irr p).avg_dscr :=
  ⟨rfl, rfl⟩

/-- C8: KPI aggregation is total (every field of `calculate_kpis` is defined
for every parameter set, the embedding being a total function); a
non-convergent IRR (`none` from the oracle standing for `npf.irr` +
`try/except` + NaN guard) surfaces as a `none` KPI, not a failure; an empty
finite-DSCR series gives `min_dscr = none` but `avg_dscr = 0` (the
asymmetric fallback); and a zero equity investment gives
`profitability_index = 0` through the explicit zero-guard. -/
theorem kpi_aggregation_fallbacks (irr : List ℚ → Option ℚ) (p : Params) :
    (calculate_kpis irr p).project_irr = irr (-p.total_investment :: cfadsList p)
    ∧ (dscrValues p = [] →
        (calculate_kpis irr p).min_dscr = none ∧ (calculate_kpis irr p).avg_dscr = 0)
    ∧ (p.total_investment * p.equity_ratio = 0 →
        (calculate_kpis irr p).profitability_index = 0) := by
  refine ⟨rfl, fun h => ⟨?_, ?_⟩, fun h => ?_⟩
  · show (dscrValues p).min? = none
    rw [h]; rfl
  · show (if 0 < (dscrValues p).length then (dscrValues p).sum / ((dscrValues p).length : ℚ)
        else 0) = 0
    rw [h]; rfl
  · show (if 0 < p.total_investment * p.equity_ratio then
        pv_inflows p / (p.total_investment * p.equity_ratio) else 0) = 0
    rw [h]
    norm_num

/-- C8 witness: at `zeroInvestmentParams` the finite-DSCR series is empty
and the equity investment is zero, and the fallbacks fire (with the
always-`none` IRR oracle, `project_irr` is `none`). -/
theorem kpi_aggregation_fallbacks_witness :
    dscrValues zeroInvestmentParams = []
    ∧ zeroInvestmentParams.total_investment * zeroInvestmentParams.equity_ratio = 0
    ∧ (calculate_kpis (fun _ => none) zeroInvestmentParams).project_irr = none
    ∧ (calculate_kpis (fun _ => none) zeroInvestmentParams).min_dscr = none
    ∧ (calculate_kpis (fun _ => none) zeroInvestmentParams).avg_dscr = 0
    ∧ (calculate_kpis (fun _ => none) zeroInvestmentParams).profitability_index = 0 := by
  have hdscr : ∀ y, DSCR zeroInvestmentParams y = none := by
    intro y
    have hdbs : Debt_Balance_Start zeroInvestmentParams y = 0 := by
      norm_num [Debt_Balance_Start, debt_investment, annual_principal, zeroInvestmentParams]
    have hds0 : Debt_Service zeroInvestmentParams y = 0 := by
      rw [Debt_Service, Interest_Payment, hdbs, Principal_Repayment, hdbs]
      norm_num
    rw [DSCR, if_neg (by rw [hds0]; norm_num)]
  have hd : dscrValues zeroInvestmentParams = [] := by
    show (List.range zeroInvestmentParams.project_period).filterMap
      (fun i => DSCR zeroInvestmentParams (i + 1)) = []
    simp [hdscr]
  have he : zeroInvestmentParams.total_investment * zeroInvestmentParams.equity_ratio = 0 := by
    norm_num [zeroInvestmentParams]
  have h := kpi_aggregation_fallbacks (fun _ => none) zeroInvestmentParams
  exact ⟨hd, he, h.1, (h.2.1 hd).1, (h.2.1 hd).2, h.2.2 he⟩

/-- C5: a sweep over `N` candidate values returns exactly `N` rows; the
`i`-th row is the KPI summary of a standalone run on the base parameters
with the single swept field overridden to the `i`-th value, under the same
scenario, tagged with that value.  (Independence of sweep points and
immutability of the base parameter set are inherent in the pure embedding:
every row is a function of the base parameters and its own swept value
alone.) -/
theorem sensitivity_analysis_rows (irr : List ℚ → Option ℚ) (p : Params)
    (scenario : String) (var : ParamField) (values : List ℚ) :
    (sensitivity_analysis irr p scenario var values).length = values.length
    ∧ ∀ i, i < values.length →
        (sensitivity_analysis irr p scenario var values).getD i default
          = ⟨calculate_project_cashflow irr (setParam p var (values.getD i 0)) scenario,
             values.getD i 0⟩ := by
  refine ⟨by simp [sensitivity_analysis], fun i hi => ?_⟩
  have hlen : i < (sensitivity_analysis irr p scenario var values).length := by
    simpa [sensitivity_analysis] using hi
  rw [List.getD_eq_getElem _ _ hlen]
  unfold sensitivity_analysis
  rw [List.getElem_map, List.getD_eq_getElem _ _ hi]

/-- C5 witness: a one-point sweep of `discount_rate` at the default
parameters under "Base Case", with the always-`none` IRR oracle. -/
theorem sensitivity_analysis_rows_witness :
    (sensitivity_analysis (fun _ => none) DefaultFinancialParams "Base Case"
        ParamField.discount_rate [1/10]).length = 1
    ∧ (sensitivity_analysis (fun _ => none) DefaultFinancialParams "Base Case"
        ParamField.discount_rate [1/10]).getD 0 default
      = ⟨calculate_project_cashflow (fun _ => none)
            (setParam DefaultFinancialParams ParamField.discount_rate
              (([1/10] : List ℚ).getD 0 0)) "Base Case",
         ([1/10] : List ℚ).getD 0 0⟩ := by
  have h := sensitivity_analysis_rows (fun _ => none) DefaultFinancialParams "Base Case"
    ParamField.discount_rate [1/10]
  exact ⟨by simpa using h.1, h.2 0 (by norm_num)⟩

theorem cfadsList_length (p : Params) : (cfadsList p).length = p.project_period := by
  simp [cfadsList]

theorem cumsumAux_length : ∀ (l : List ℚ) (acc : ℚ), (cumsumAux acc l).length = l.length
  | [], _ => rfl
  | x :: xs, acc => by simp [cumsumAux, cumsumAux_length xs]

theorem cumsum_length (l : List ℚ) : (cumsum l).length = l.length :=
  cumsumAux_length l 0

theorem cumsumAux_getD :
    ∀ (l : List ℚ) (acc : ℚ) (i : ℕ), i < l.length →
      (cumsumAux acc l).getD i 0 = acc + (l.take (i + 1)).sum := by
  intro l
  induction l with
  | nil => intro acc i hi; simp at hi
  | cons x xs ih =>
    intro acc i hi
    cases i with
    | zero => simp [cumsumAux]
    | succ n =>
      have hn : n < xs.length := by simpa using hi
      show (cumsumAux (acc + x) xs).getD n 0 = acc + ((x :: xs).take (n + 1 + 1)).sum
      rw [ih (acc + x) n hn, List.take_succ_cons, List.sum_cons]
      ring

theorem cumsum_getD (l : List ℚ) (i : ℕ) (hi : i < l.length) :
    (cumsum l).getD i 0 = (l.take (i + 1)).sum := by
  rw [cumsum, cumsumAux_getD l 0 i hi, zero_add]

/-- `first_nonneg_index` finds exactly the first index whose entry is
nonnegative. -/
theorem first_nonneg_index_eq_some :
    ∀ (l : List ℚ) (i : ℕ),
      first_nonneg_index l = some i ↔
        (i < l.length ∧ 0 ≤ l.getD i 0 ∧ ∀ j, j < i → l.getD j 0 < 0) := by
  intro l
  induction l with
  | nil => intro i; simp [first_nonneg_index]
  | cons x xs ih =>
    intro i
    by_cases hx : 0 ≤ x
    · rw [first_nonneg_index, if_pos hx]
      cases i with
      | zero => simpa using hx
      | succ n =>
        constructor
        · intro h; exact absurd h (by simp)
        · rintro ⟨-, -, hall⟩
          exact absurd (hall 0 (Nat.succ_pos n)) (not_lt.mpr hx)
    · have hx' : x < 0 := lt_of_not_ge hx
      rw [first_nonneg_index, if_neg hx]
      cases i with
      | zero =>
        constructor
        · intro h
          rcases Option.map_eq_some'.mp h with ⟨a, -, ha⟩
          exact absurd ha (by omega)
        · rintro ⟨-, h0, -⟩
          exact absurd h0 (not_le.mpr hx')
      | succ n =>
        rw [Option.map_eq_some']
        constructor
        · rintro ⟨a, ha, han⟩
          have haa : a = n := by omega
          rw [haa] at ha
          rcases (ih n).mp ha with ⟨h1, h2, h3⟩
          refine ⟨by simpa using Nat.succ_lt_succ h1, h2, ?_⟩
          intro j hj
          cases j with
          | zero => simpa using hx'
          | succ m => exact h3 m (by omega)
        · rintro ⟨h1, h2, h3⟩
          exact ⟨n, (ih n).mpr
            ⟨by simpa using h1, h2, fun m hm => h3 (m + 1) (by omega)⟩, rfl⟩

/-- `first_nonneg_index` returns `none` exactly when every entry is
negative. -/
theorem first_nonneg_index_eq_none :
    ∀ l : List ℚ,
      first_nonneg_index l = none ↔ ∀ j, j < l.length → l.getD j 0 < 0 := by
  intro l
  induction l with
  | nil => simp [first_nonneg_index]
  | cons x xs ih =>
    by_cases hx : 0 ≤ x
    · rw [first_nonneg_index, if_pos hx]
      constructor
      · intro h; exact absurd h (by simp)
      · intro h; exact absurd (h 0 (by simp)) (not_lt.mpr hx)
    · rw [first_nonneg_index, if_neg hx, Option.map_eq_none', ih]
      constructor
      · intro h j hj
        cases j with
        | zero => simpa using lt_of_not_ge hx
        | succ m => exact h m (by simpa using hj)
      · intro h m hm
        exact h (m + 1) (by simpa using hm)

/-- C6: `payback_period` is `some y` exactly for the smallest 1-based year
`y ≤ project_period` whose cumulative CFAds sum (excluding the initial
outlay) is nonnegative, and `none` exactly when every cumulative sum within
`1..project_period` is negative. -/
theorem payback_period_characterization (p : Params) :
    (∀ y : ℕ, payback_period p = some y ↔
       (1 ≤ y ∧ y ≤ p.project_period ∧ 0 ≤ ((cfadsList p).take y).sum
        ∧ ∀ z : ℕ, 1 ≤ z → z < y → ((cfadsList p).take z).sum < 0))
    ∧ (payback_period p = none ↔
        ∀ y : ℕ, 1 ≤ y → y ≤ p.project_period → ((cfadsList p).take y).sum < 0) := by
  have hCl : (cumsum (cfadsList p)).length = p.project_period := by
    rw [cumsum_length, cfadsList_length]
  constructor
  · intro y
    rw [payback_period, Option.map_eq_some']
    constructor
    · rintro ⟨i, hi, rfl⟩
      rcases (first_nonneg_index_eq_some _ i).mp hi with ⟨h1, h2, h3⟩
      rw [hCl] at h1
      rw [cumsum_getD _ i (by rw [cfadsList_length]; omega)] at h2
      refine ⟨by omega, by omega, h2, ?_⟩
      intro z hz1 hz2
      have hj := h3 (z - 1) (by omega)
      rw [cumsum_getD _ (z - 1) (by rw [cfadsList_length]; omega)] at hj
      have hz : z - 1 + 1 = z := by omega
      rwa [hz] at hj
    · rintro ⟨hy1, hyP, hsum, hall⟩
      refine ⟨y - 1, (first_nonneg_index_eq_some _ (y - 1)).mpr ⟨?_, ?_, ?_⟩, by omega⟩
      · rw [hCl]; omega
      · rw [cumsum_getD _ (y - 1) (by rw [cfadsList_length]; omega)]
        have hy : y - 1 + 1 = y := by omega
        rw [hy]; exact hsum
      · intro j hj
        rw [cumsum_getD _ j (by rw [cfadsList_length]; omega)]
        exact hall (j + 1) (by omega) (by omega)
  · rw [payback_period, Option.map_eq_none', first_nonneg_index_eq_none]
    constructor
    · intro h y hy1 hyP
      have hj := h (y - 1) (by rw [hCl]; omega)
      rw [cumsum_getD _ (y - 1) (by rw [cfadsList_length]; omega)] at hj
      have hy : y - 1 + 1 = y := by omega
      rwa [hy] at hj
    · intro h j hj
      rw [hCl] at hj
      rw [cumsum_getD _ j (by rw [cfadsList_length]; omega)]
      exact h (j + 1) (by omega) (by omega)

/-- C6 witness: at `zeroInvestmentParams` the year-1 cumulative CFAds is
`0 ≥ 0`, so the characterization yields `payback_period = some 1`. -/
theorem payback_period_characterization_witness :
    payback_period zeroInvestmentParams = some 1 := by
  have hE : EBITDA zeroInvestmentParams 1 = 0 := by
    norm_num [EBITDA, Revenue, OpCost, zeroInvestmentParams]
  have hEBT : EBT zeroInvestmentParams 1 = 0 := by
    norm_num [EBT, EBIT, EBITDA, Revenue, OpCost, Depreciation, annual_depreciation,
      Interest_Payment, Debt_Balance_Start, debt_investment, annual_principal,
      zeroInvestmentParams]
  have hTax : Tax zeroInvestmentParams 1 = 0 := by
    rw [Tax_eq zeroInvestmentParams 1 (by norm_num) (by norm_num [zeroInvestmentParams]), hEBT]
    norm_num
  have hcf : CFAds zeroInvestmentParams 1 = 0 := by
    rw [CFAds, hE, hTax]; norm_num
  have hlist : cfadsList zeroInvestmentParams
      = [CFAds zeroInvestmentParams 1, CFAds zeroInvestmentParams 2] := by
    show (List.range zeroInvestmentParams.project_period).map _ = _
    norm_num [zeroInvestmentParams, List.range_succ]
  have htake : ((cfadsList zeroInvestmentParams).take 1).sum = 0 := by
    rw [hlist]
    simp [hcf]
  exact ((payback_period_characterization zeroInvestmentParams).1 1).mpr
    ⟨le_rfl, by norm_num [zeroInvestmentParams], le_of_eq htake.symm,
     fun z h1 h2 => absurd (h1.trans_lt h2) (lt_irrefl 1)⟩

end PPP
